import Mathlib

/-!
Verification development for the `neredenaldim/websitesi` preview tool
(`online_preview.py`, `preview_neredenaldim.py`).

The Python sources are shallowly embedded: each function that a claim is
about is translated into a pure Lean function over an explicit environment
(socket probing results, subprocess stdout lines, environment variables,
terminal state).  Machine I/O is abstracted into those environment records;
control flow, string processing and the regular-expression search are
translated faithfully from the source.
-/

namespace Websitesi

/-! ## String helpers mirroring Python string semantics -/

/-- Python `\s` (ASCII range), as used by `str.strip()` and `re` `[^\s]`. -/
def isPySpace (c : Char) : Bool :=
  c = ' ' || c = '\t' || c = '\n' || c = '\r' || c = '\x0b' || c = '\x0c'

/-- Python `str.strip()` on a character list. -/
def stripChars (cs : List Char) : List Char :=
  ((cs.dropWhile isPySpace).reverse.dropWhile isPySpace).reverse

/-- Python `str.strip()`. -/
def pyStrip (s : String) : String := ⟨stripChars s.data⟩

/-- Python `needle in hay` substring test on character lists. -/
def containsSub (needle : List Char) : List Char → Bool
  | [] => needle.isEmpty
  | c :: t => needle.isPrefixOf (c :: t) || containsSub needle t

/-- Python `"err=" in line` (`open_ngrok_cli_tunnel`, line 142). -/
def containsErr (line : String) : Bool :=
  containsSub "err=".data line.data

/-- Attempt the regex `url=(https?://[^\s]+)` anchored at the start of `cs`,
returning group 1.  `https?` is greedy with backtracking, which on this
pattern is equivalent to trying the `https://` literal first. -/
def matchUrlAt (cs : List Char) : Option (List Char) :=
  if "url=https://".data.isPrefixOf cs then
    let body := (cs.drop 12).takeWhile (fun c => !isPySpace c)
    if body.isEmpty then none else some ("https://".data ++ body)
  else if "url=http://".data.isPrefixOf cs then
    let body := (cs.drop 11).takeWhile (fun c => !isPySpace c)
    if body.isEmpty then none else some ("http://".data ++ body)
  else none

/-- Leftmost search of the anchored pattern, as `re.search` does. -/
def searchUrl : List Char → Option (List Char)
  | [] => none
  | c :: t =>
    match matchUrlAt (c :: t) with
    | some m => some m
    | none => searchUrl t

/-- `url_pattern.search(line)` with `url_pattern = re.compile(r"url=(https?://[^\s]+)")`
(`open_ngrok_cli_tunnel`, lines 125 and 133), returning `match.group(1)`. -/
def urlMatch (line : String) : Option String :=
  (searchUrl line.data).map (fun cs => ⟨cs⟩)

/-- `candidate.startswith("https://")` (line 137). -/
def isHttpsUrl (u : String) : Bool :=
  "https://".data.isPrefixOf u.data

/-! ## The ngrok CLI stdout-reading loop (`open_ngrok_cli_tunnel`) -/

/-- How the stdout-reading phase of `open_ngrok_cli_tunnel` stops consuming
lines when no `break`/`raise` fired: either `readline` returned the empty
string (end of stream, `if not line: break`) or the loop-top check
`time.time() < deadline` failed (the 30-second window elapsed).  Both exits
fall through to the same post-loop code. -/
inductive Ending
  | eof
  | timeout
deriving DecidableEq

/-- Outcome of `open_ngrok_cli_tunnel`: either a `TunnelResult` carrying the
public URL, or a raised `TunnelError` carrying its message; `terminated`
records whether `process.terminate()` was called on the error path. -/
inductive CliOutcome
  | established (url : String)
  | failed (msg : String) (terminated : Bool)
deriving DecidableEq

/-- The message of line 148. -/
def noUrlMsg : String :=
  "ngrok CLI did not report a public URL. Check your ngrok setup."

/-- The message of line 110. -/
def notInstalledMsg : String :=
  "ngrok CLI is not installed or not on PATH."

/-- The `while time.time() < deadline` loop of lines 129-148 of
`online_preview.py`, over the list of lines the subprocess emits within the
window, plus the post-loop `if not url` check.  Per line: search the URL
pattern; an HTTPS candidate sets `url` and breaks (skipping the rest of the
body); an HTTP candidate sets `url` only if it is still `None`; then a line
containing `err=` terminates the process and raises the stripped line. -/
def cliReadLoop : List String → Ending → Option String → CliOutcome
  | [], _, url =>
    match url with
    | some u => CliOutcome.established u
    | none => CliOutcome.failed noUrlMsg true
  | line :: rest, ending, url =>
    match urlMatch line with
    | some candidate =>
      if isHttpsUrl candidate then CliOutcome.established candidate
      else if containsErr line then CliOutcome.failed (pyStrip line) true
      else cliReadLoop rest ending (if url.isNone then some candidate else url)
    | none =>
      if containsErr line then CliOutcome.failed (pyStrip line) true
      else cliReadLoop rest ending url

/-- Environment of one run of the external-process backend: whether
`shutil.which("ngrok")` finds the executable, the lines read from the
subprocess stdout within the 30-second window, and how the stream stops. -/
structure CliEnv where
  ngrokOnPath : Bool
  stdoutLines : List String
  ending : Ending

/-- `open_ngrok_cli_tunnel` (lines 105-157): fail if the executable is
absent, otherwise run the stdout-reading loop with `url = None`. -/
def open_ngrok_cli_tunnel (env : CliEnv) : CliOutcome :=
  if env.ngrokOnPath then cliReadLoop env.stdoutLines env.ending none
  else CliOutcome.failed notInstalledMsg false

/-- The value `url` holds after the loop has processed `lines` without
breaking: the first URL candidate wins except that an HTTPS candidate would
have broken out (callers establish no HTTPS candidate occurs). -/
def foldUrl : List String → Option String → Option String
  | [], url => url
  | line :: rest, url =>
    match urlMatch line with
    | some candidate => foldUrl rest (if url.isNone then some candidate else url)
    | none => foldUrl rest url

/-- The line's URL candidate (if any) starts with `https://`, i.e. the line
would trigger the `break` of line 139. -/
def httpsCandidate (line : String) : Bool :=
  match urlMatch line with
  | some w => isHttpsUrl w
  | none => false

/-! ## Port selection -/

/-- Local TCP state seen by the port probes: `listening p` is true exactly
when `sock.connect_ex(("127.0.0.1", p))` returns 0 (something accepts on
`p`), and `ephemeral` is the port the OS assigns when a fresh socket is
bound to port 0 (a port no active listener holds). -/
structure NetEnv where
  listening : Nat → Bool
  ephemeral : Nat

/-- The `OSError` raised by `sock.bind` on a socket that a successful
`connect_ex` has just connected. -/
def einvalMsg : String := "OSError: [Errno 22] Invalid argument"

/-- `find_available_port` of `online_preview.py` (lines 71-77): probe the
preferred port with `connect_ex` and then call `sock.bind` on the SAME
socket.  When the probe connect succeeds the socket is left connected, so
the `sock.bind(("", 0))` that follows raises `OSError(EINVAL)` and the
function raises instead of returning an OS-assigned ephemeral port; only
when nothing listens does the bind succeed and the preferred port come
back. -/
def find_available_port (env : NetEnv) (preferred : Nat) : Except String Nat :=
  if env.listening preferred then Except.error einvalMsg
  else Except.ok preferred

/-- `find_free_port` of `preview_neredenaldim.py` (lines 27-37): if
`connect_ex` fails (nothing listening) return the preferred port, else bind
`("127.0.0.1", 0)` on a FRESH socket (the probe socket was closed by its
`with` block) and return its assigned port — unlike `find_available_port`,
this variant's ephemeral path works. -/
def find_free_port (env : NetEnv) (preferred : Nat) : Nat :=
  if !env.listening preferred then preferred else env.ephemeral

/-! ## The single-file request handler -/

/-- Environment of `SingleFileHTTPRequestHandler`: `base_path` is the
resolved target file (`str(self.base_path)`), `parentDir` is the directory
the handler was constructed with (`directory=str(base_path.parent)`,
line 58), and `superTranslate dir path` abstracts the inherited
`SimpleHTTPRequestHandler.translate_path`, which resolves `path` against
the static-file root `dir`. -/
structure HandlerEnv where
  base_path : String
  parentDir : String
  superTranslate : String → String → String

/-- `SingleFileHTTPRequestHandler.translate_path` (lines 60-64): the root
URL path (`"/"` or `""`) maps to the target file; every other path is
delegated to the inherited static-file resolution. -/
def translate_path (env : HandlerEnv) (path : String) : String :=
  if path = "/" ∨ path = "" then env.base_path
  else env.superTranslate env.parentDir path

/-! ## Auth-token resolution -/

/-- Environment read by `resolve_auth_token`: `os.getenv("NGROK_AUTHTOKEN")`
(`none` when unset), `sys.stdin.isatty()`, and what `input()` would return
if the prompt runs. -/
structure TokenEnv where
  envToken : Option String
  isatty : Bool
  promptInput : String

/-- Python truthiness of an optional string: `None` and `""` are falsy. -/
def pyTruthy : Option String → Bool
  | none => false
  | some t => t ≠ ""

/-- `resolve_auth_token` (lines 160-173): explicit CLI token if truthy,
else the environment variable if truthy, else — only on an interactive
terminal — the stripped prompt input if non-empty, else `None`. -/
def resolve_auth_token (env : TokenEnv) (cliToken : Option String) : Option String :=
  if pyTruthy cliToken then cliToken
  else if pyTruthy env.envToken then env.envToken
  else if env.isatty then
    if pyStrip env.promptInput ≠ "" then some (pyStrip env.promptInput) else none
  else none

/-! ## pyngrok preparation and `main` -/

/-- How `ensure_pyngrok` (lines 33-50) ends: the import succeeds (possibly
after a pip install), or it raises — `ModuleNotFoundError` when the module
is absent and auto-install is disabled, `SystemExit` when the pip install
fails, or some other exception surfaced during import (caught defensively
by `main`). -/
inductive PyngrokPrep
  | available
  | moduleNotFound
  | installFailed (msg : String)
  | otherFailure (msg : String)
deriving DecidableEq

/-- The `SystemExit` message of lines 45-47. -/
def pipFailMsg : String :=
  "Automatic pyngrok installation failed. Install it manually with 'pip install pyngrok'."

/-- `ensure_pyngrok(auto_install)` over the environment facts it probes:
whether pyngrok is importable and whether `pip install pyngrok` succeeds. -/
def ensure_pyngrok (autoInstall installed pipOk : Bool) : PyngrokPrep :=
  if installed then PyngrokPrep.available
  else if !autoInstall then PyngrokPrep.moduleNotFound
  else if pipOk then PyngrokPrep.available
  else PyngrokPrep.installFailed pipFailMsg

/-- Environment of one run of `main` (lines 176-287): whether the resolved
HTML file exists, the `--skip-auto-install` flag, the pyngrok facts, the
outcome `open_pyngrok_tunnel` would have (public URL or exception message),
the network state for port selection, and the CLI backend environment. -/
structure MainEnv where
  htmlExists : Bool
  skipAutoInstall : Bool
  pyngrokInstalled : Bool
  pipOk : Bool
  importOther : Option String
  libTunnel : Except String String
  net : NetEnv
  preferredPort : Nat
  cli : CliEnv

/-- The `ensure_pyngrok` outcome `main` observes at lines 218-225. -/
def prepOutcome (env : MainEnv) : PyngrokPrep :=
  match env.importOther with
  | some msg => PyngrokPrep.otherFailure msg
  | none => ensure_pyngrok (!env.skipAutoInstall) env.pyngrokInstalled env.pipOk

/-- `modules is not None` after the try/except of lines 218-225: every
failure mode of `ensure_pyngrok` is caught (`SystemExit` at line 220,
everything else at line 223) and leaves `modules = None`. -/
def isAvailable : PyngrokPrep → Bool
  | PyngrokPrep.available => true
  | _ => false

/-- Observable outcome of a run of `main`: the return value, the selected
port (`none` when `find_available_port` was never called), whether the
server was started, whether `modules` ended up non-`None`, whether
`open_ngrok_cli_tunnel` was attempted, the public URL, and the accumulated
failure reasons of the `errors` list. -/
structure MainResult where
  exitCode : Nat
  port : Option Nat
  serverStarted : Bool
  libraryPrepared : Bool
  cliAttempted : Bool
  tunnelUrl : Option String
  errors : List String
deriving DecidableEq

/-- Lines 236-280 of `main`: the CLI fallback (entered with `tunnel` still
`None`), then either degraded local-only mode returning 1 or the public
tunnel loop returning 0 after the interrupt. -/
def mainCliPhase (env : MainEnv) (port : Nat) (libraryPrepared : Bool)
    (errs : List String) : MainResult :=
  match open_ngrok_cli_tunnel env.cli with
  | CliOutcome.established u =>
    ⟨0, some port, true, libraryPrepared, true, some u, errs⟩
  | CliOutcome.failed m _ =>
    ⟨1, some port, true, libraryPrepared, true, none, errs ++ [m]⟩

/-- Lines 214-240 of `main` after the server is up: the library backend is
tried when `modules` is available, its exception is recorded as
`"pyngrok backend failed: ..."`, and the CLI backend runs only if no tunnel
exists yet. -/
def mainAfterStart (env : MainEnv) (port : Nat) : MainResult :=
  if isAvailable (prepOutcome env) then
    match env.libTunnel with
    | Except.ok u => ⟨0, some port, true, true, false, some u, []⟩
    | Except.error e => mainCliPhase env port true ["pyngrok backend failed: " ++ e]
  else mainCliPhase env port false []

/-- `main` (lines 176-287): a missing target file reports and returns 1
before any port probe, server bind or tunnel attempt; otherwise
`find_available_port` runs at line 209 — OUTSIDE the `try` that starts at
line 214 — so the `OSError` it raises on an occupied preferred port escapes
`main` uncaught (`Except.error`: the process dies with a traceback).  When
the probe returns a port, the server starts and the backend chain runs;
the interrupt that ends the two wait loops is modelled as always
eventually arriving. -/
def main (env : MainEnv) : Except String MainResult :=
  if !env.htmlExists then Except.ok ⟨1, none, false, false, false, none, []⟩
  else
    match find_available_port env.net env.preferredPort with
    | Except.error e => Except.error e
    | Except.ok port => Except.ok (mainAfterStart env port)

/-! ## Lemmas about the stdout-reading loop -/

/-- A prefix of lines none of which breaks the loop (no HTTPS candidate, no
`err=` marker) is consumed while only the recorded `url` evolves, by the
`foldUrl` folding. -/
theorem cliReadLoop_append (pre rest : List String) (ending : Ending) (url : Option String)
    (h : ∀ l ∈ pre, httpsCandidate l = false ∧ containsErr l = false) :
    cliReadLoop (pre ++ rest) ending url = cliReadLoop rest ending (foldUrl pre url) := by
  induction pre generalizing url with
  | nil => rfl
  | cons l t ih =>
    obtain ⟨hm, he⟩ := h l (List.mem_cons_self l t)
    have ht : ∀ x ∈ t, httpsCandidate x = false ∧ containsErr x = false :=
      fun x hx => h x (List.mem_cons_of_mem l hx)
    cases hum : urlMatch l with
    | none =>
      simp only [List.cons_append, cliReadLoop, foldUrl, hum, he, Bool.false_eq_true,
        if_false]
      exact ih url ht
    | some c =>
      have hc : isHttpsUrl c = false := by
        simpa only [httpsCandidate, hum] using hm
      simp only [List.cons_append, cliReadLoop, foldUrl, hum, hc, he, Bool.false_eq_true,
        if_false]
      exact ih _ ht

/-- Once a URL has been recorded, later non-breaking lines never replace it
(the `if url is None` guard of line 140). -/
theorem foldUrl_preserve_some (lines : List String) (u : String) :
    foldUrl lines (some u) = some u := by
  induction lines with
  | nil => rfl
  | cons l t ih =>
    cases hum : urlMatch l with
    | none => simpa only [foldUrl, hum] using ih
    | some c => simpa only [foldUrl, hum, Option.isNone_some, if_false] using ih

/-- Lines with no URL match leave the recorded `url` unchanged. -/
theorem foldUrl_of_no_match (lines : List String) (url : Option String)
    (h : ∀ l ∈ lines, urlMatch l = none) :
    foldUrl lines url = url := by
  induction lines with
  | nil => rfl
  | cons l t ih =>
    have hl : urlMatch l = none := h l (List.mem_cons_self l t)
    have ht : ∀ x ∈ t, urlMatch x = none := fun x hx => h x (List.mem_cons_of_mem l hx)
    simpa only [foldUrl, hl] using ih ht

/-! ## Claim theorems -/

/-- Claim C1: if the external tunnel subprocess emits no line matching the
URL pattern before the 30-second window elapses (including emitting nothing
at all) — and no line carries the `err=` marker, which would take the
separate immediate-failure path — `open_ngrok_cli_tunnel` terminates the
subprocess and raises `TunnelError` with the did-not-report-a-public-URL
message, instead of blocking past the deadline. -/
theorem cli_timeout_no_url (env : CliEnv)
    (hpath : env.ngrokOnPath = true)
    (hend : env.ending = Ending.timeout)
    (hnourl : ∀ l ∈ env.stdoutLines, urlMatch l = none)
    (hnoerr : ∀ l ∈ env.stdoutLines, containsErr l = false) :
    open_ngrok_cli_tunnel env = CliOutcome.failed noUrlMsg true := by
  have hclean : ∀ l ∈ env.stdoutLines, httpsCandidate l = false ∧ containsErr l = false := by
    intro l hl
    exact ⟨by simp only [httpsCandidate, hnourl l hl], hnoerr l hl⟩
  have happ := cliReadLoop_append env.stdoutLines [] env.ending none hclean
  rw [List.append_nil] at happ
  simp only [open_ngrok_cli_tunnel, hpath, if_true, happ,
    foldUrl_of_no_match env.stdoutLines none hnourl]
  rfl

/-- Claim C1 witness: a subprocess that emits only a non-URL line and then
lets the window elapse. -/
theorem cli_timeout_no_url_witness :
    open_ngrok_cli_tunnel ⟨true, ["t=lvl msg=starting tunnel\n"], Ending.timeout⟩ =
      CliOutcome.failed noUrlMsg true :=
  cli_timeout_no_url ⟨true, ["t=lvl msg=starting tunnel\n"], Ending.timeout⟩
    rfl rfl (by decide) (by decide)

/-- Claim C3: when the subprocess emits a line with an HTTP URL match and a
later line with an HTTPS URL match within the window (no earlier line
breaking the loop), `open_ngrok_cli_tunnel` returns the HTTPS URL, not the
HTTP one: the HTTPS match takes precedence over the recorded HTTP match. -/
theorem cli_prefers_https (env : CliEnv) (pre mid post : List String)
    (hl sl u v : String)
    (hpath : env.ngrokOnPath = true)
    (henv : env.stdoutLines = (pre ++ hl :: mid) ++ sl :: post)
    (hhl : urlMatch hl = some u) (hu : isHttpsUrl u = false)
    (hsl : urlMatch sl = some v) (hv : isHttpsUrl v = true)
    (hclean : ∀ l ∈ pre ++ hl :: mid, httpsCandidate l = false ∧ containsErr l = false) :
    open_ngrok_cli_tunnel env = CliOutcome.established v := by
  simp only [open_ngrok_cli_tunnel, hpath, if_true, henv,
    cliReadLoop_append (pre ++ hl :: mid) (sl :: post) env.ending none hclean,
    cliReadLoop, hsl, hv]

/-- Claim C3 witness: the spec's own example transcript. -/
theorem cli_prefers_https_witness :
    open_ngrok_cli_tunnel
        ⟨true, ["t=info url=http://fake.example\n", "t=info url=https://secure.example\n"],
          Ending.eof⟩ =
      CliOutcome.established "https://secure.example" :=
  cli_prefers_https
    ⟨true, ["t=info url=http://fake.example\n", "t=info url=https://secure.example\n"],
      Ending.eof⟩
    [] [] [] "t=info url=http://fake.example\n" "t=info url=https://secure.example\n"
    "http://fake.example" "https://secure.example"
    rfl rfl (by decide) (by decide) (by decide) (by decide) (by decide)

/-- Claim C4 counterexample: a line containing both an HTTPS URL match and
the `err=` marker does NOT fail — the HTTPS `break` of line 139 fires
before the `err=` check of line 142 is reached, so the run succeeds with
the HTTPS URL instead of raising that line as a `TunnelError`. -/
theorem cli_err_marker_counterexample :
    containsErr "url=https://ok.example err=boom" = true ∧
    open_ngrok_cli_tunnel ⟨true, ["url=https://ok.example err=boom"], Ending.eof⟩ =
      CliOutcome.established "https://ok.example" ∧
    open_ngrok_cli_tunnel ⟨true, ["url=https://ok.example err=boom"], Ending.eof⟩ ≠
      CliOutcome.failed (pyStrip "url=https://ok.example err=boom") true :=
  ⟨by decide, by decide, by decide⟩

/-- Claim C4 (amended): for every line read whose URL candidate is not an
HTTPS match (in particular any line with no URL match at all), if the line
contains the `err=` marker then `open_ngrok_cli_tunnel` fails immediately —
the subprocess is terminated and the raised `TunnelError` message is that
line's stripped text — regardless of anything emitted afterwards. -/
theorem cli_err_line_fails (env : CliEnv) (pre post : List String) (el : String)
    (hpath : env.ngrokOnPath = true)
    (henv : env.stdoutLines = pre ++ el :: post)
    (hclean : ∀ l ∈ pre, httpsCandidate l = false ∧ containsErr l = false)
    (herr : containsErr el = true)
    (hnoth : httpsCandidate el = false) :
    open_ngrok_cli_tunnel env = CliOutcome.failed (pyStrip el) true := by
  simp only [open_ngrok_cli_tunnel, hpath, if_true, henv,
    cliReadLoop_append pre (el :: post) env.ending none hclean]
  cases hum : urlMatch el with
  | none => simp only [cliReadLoop, hum, herr, if_true]
  | some c =>
    have hc : isHttpsUrl c = false := by
      simpa only [httpsCandidate, hum] using hnoth
    simp only [cliReadLoop, hum, hc, herr, Bool.false_eq_true, if_false, if_true]

/-- Claim C4 witness: an ordinary log line followed by an error line. -/
theorem cli_err_line_fails_witness :
    open_ngrok_cli_tunnel ⟨true, ["t=lvl msg=starting\n", "t=err err=failed to start\n"],
        Ending.eof⟩ =
      CliOutcome.failed "t=err err=failed to start" true :=
  cli_err_line_fails
    ⟨true, ["t=lvl msg=starting\n", "t=err err=failed to start\n"], Ending.eof⟩
    ["t=lvl msg=starting\n"] [] "t=err err=failed to start\n"
    rfl rfl (by decide) (by decide) (by decide)

/-- Claim C10: if the stdout stream carries an HTTP (non-HTTPS) URL match
and then reaches end-of-stream before the deadline, with no HTTPS match and
no `err=` marker anywhere, `open_ngrok_cli_tunnel` succeeds and returns the
first HTTP URL recorded: an HTTP-only output is a success, not a failure. -/
theorem cli_http_only_success (env : CliEnv) (pre post : List String) (l0 u : String)
    (hpath : env.ngrokOnPath = true)
    (hend : env.ending = Ending.eof)
    (henv : env.stdoutLines = pre ++ l0 :: post)
    (hu : urlMatch l0 = some u)
    (hpre : ∀ l ∈ pre, urlMatch l = none)
    (hnohttps : ∀ l ∈ env.stdoutLines, httpsCandidate l = false)
    (hnoerr : ∀ l ∈ env.stdoutLines, containsErr l = false) :
    open_ngrok_cli_tunnel env = CliOutcome.established u := by
  have hmem : ∀ l ∈ pre ++ l0 :: post, httpsCandidate l = false ∧ containsErr l = false := by
    intro l hl
    exact ⟨hnohttps l (henv ▸ hl), hnoerr l (henv ▸ hl)⟩
  have hcleanpre : ∀ l ∈ pre, httpsCandidate l = false ∧ containsErr l = false :=
    fun l hl => hmem l (List.mem_append_left _ hl)
  have hcleanpost : ∀ l ∈ post, httpsCandidate l = false ∧ containsErr l = false :=
    fun l hl => hmem l (List.mem_append_right _ (List.mem_cons_of_mem l0 hl))
  have hl0 := hmem l0 (List.mem_append_right _ (List.mem_cons_self l0 post))
  have hc : isHttpsUrl u = false := by
    simpa only [httpsCandidate, hu] using hl0.1
  have happ := cliReadLoop_append post [] env.ending (some u) hcleanpost
  rw [List.append_nil] at happ
  simp only [open_ngrok_cli_tunnel, hpath, if_true, henv,
    cliReadLoop_append pre (l0 :: post) env.ending none hcleanpre,
    foldUrl_of_no_match pre none hpre, cliReadLoop, hu, hc, hl0.2, Bool.false_eq_true,
    if_false, Option.isNone_none, if_true, happ, foldUrl_preserve_some]

/-- Claim C10 witness: a single HTTP URL line, then end-of-stream. -/
theorem cli_http_only_success_witness :
    open_ngrok_cli_tunnel ⟨true, ["t=info url=http://fake.example\n"], Ending.eof⟩ =
      CliOutcome.established "http://fake.example" :=
  cli_http_only_success ⟨true, ["t=info url=http://fake.example\n"], Ending.eof⟩
    [] [] "t=info url=http://fake.example\n" "http://fake.example"
    rfl rfl rfl (by decide) (by decide) (by decide) (by decide)

/-- Claim C2 (code bug): with a listener on the preferred port 8000,
`find_available_port` raises `OSError(EINVAL)` — `sock.bind` runs on the
probe socket the successful `connect_ex` left connected — instead of
returning an OS-assigned ephemeral port as the spec requires, while the
sibling `find_free_port` (which binds a fresh socket) returns the
ephemeral port 40123 as specified; with the preferred port free,
`find_available_port` does return it. -/
theorem find_available_port_occupied_raises :
    find_available_port ⟨fun p => p == 8000, 40123⟩ 8000 = Except.error einvalMsg ∧
    find_free_port ⟨fun p => p == 8000, 40123⟩ 8000 = 40123 ∧
    find_available_port ⟨fun p => p == 8000, 40123⟩ 9000 = Except.ok 9000 :=
  ⟨rfl, rfl, rfl⟩

/-- Claim C5 (code bug): a run whose target file exists and whose library
backend would deliver a tunnel, but whose preferred port is occupied:
`main` propagates the `OSError` raised inside `find_available_port` at
line 209, outside the `try` block, so the process dies with a traceback —
an exit-status-1 situation beyond the two the exit-code contract allows,
with no tunnel attempt and no clean interrupt. -/
theorem main_occupied_port_crashes :
    main ⟨true, false, true, true, none, Except.ok "https://lib.example",
        ⟨fun p => p == 8000, 40123⟩, 8000,
        ⟨true, ["t=info url=https://t.example\n"], Ending.eof⟩⟩ =
      Except.error einvalMsg :=
  rfl

/-- Claim C7: when the target HTML file does not exist, `main` returns 1
having selected no port, started no server, prepared no library backend and
attempted no CLI backend. -/
theorem main_missing_file (env : MainEnv) (h : env.htmlExists = false) :
    main env = Except.ok ⟨1, none, false, false, false, none, []⟩ := by
  simp [main, h]

/-- Claim C7 witness: a run whose target file is absent. -/
theorem main_missing_file_witness :
    main ⟨false, false, true, true, none, Except.error "lib down",
        ⟨fun _ => false, 40123⟩, 8000, ⟨true, ["t=info url=https://x.y\n"], Ending.eof⟩⟩ =
      Except.ok ⟨1, none, false, false, false, none, []⟩ :=
  main_missing_file
    ⟨false, false, true, true, none, Except.error "lib down",
      ⟨fun _ => false, 40123⟩, 8000, ⟨true, ["t=info url=https://x.y\n"], Ending.eof⟩⟩ rfl

/-- Claim C9: in every run that actually reaches `ensure_pyngrok` — the
target file exists and the port probe did not crash (nothing listening on
the preferred port, see the C2/C5 code bug) — whatever way `ensure_pyngrok`
fails (`SystemExit` from a failed pip install, `ModuleNotFoundError` with
auto-install disabled, or any other exception), `main` catches it, records
the library backend as unavailable, still attempts the external-process
CLI backend, and returns an ordinary exit code instead of terminating. -/
theorem pyngrok_failure_still_tries_cli (env : MainEnv)
    (hex : env.htmlExists = true)
    (hport : env.net.listening env.preferredPort = false)
    (hfail : isAvailable (prepOutcome env) = false) :
    main env = Except.ok (mainAfterStart env env.preferredPort) ∧
    (mainAfterStart env env.preferredPort).libraryPrepared = false ∧
    (mainAfterStart env env.preferredPort).cliAttempted = true ∧
    ((mainAfterStart env env.preferredPort).exitCode = 0 ∨
      (mainAfterStart env env.preferredPort).exitCode = 1) := by
  refine ⟨?_, ?_, ?_, ?_⟩
  · simp [main, hex, find_available_port, hport]
  · cases hcli : open_ngrok_cli_tunnel env.cli <;>
      simp [mainAfterStart, mainCliPhase, hfail, hcli]
  · cases hcli : open_ngrok_cli_tunnel env.cli <;>
      simp [mainAfterStart, mainCliPhase, hfail, hcli]
  · cases hcli : open_ngrok_cli_tunnel env.cli <;>
      simp [mainAfterStart, mainCliPhase, hfail, hcli]

/-- Claim C9 witness: pyngrok missing with auto-install disabled
(`ModuleNotFoundError`) and the preferred port free; `main` returns
normally, the library backend is recorded unavailable, the CLI backend was
attempted (its not-installed failure is in the errors list) and the run
degrades to exit code 1. -/
theorem pyngrok_failure_still_tries_cli_witness :
    main ⟨true, true, false, true, none, Except.error "unused",
        ⟨fun _ => false, 40123⟩, 8000, ⟨false, [], Ending.eof⟩⟩ =
      Except.ok ⟨1, some 8000, true, false, true, none, [notInstalledMsg]⟩ :=
  (pyngrok_failure_still_tries_cli
    ⟨true, true, false, true, none, Except.error "unused",
      ⟨fun _ => false, 40123⟩, 8000, ⟨false, [], Ending.eof⟩⟩ rfl rfl (by decide)).1

/-- Claim C6: `resolve_auth_token` applies exactly the precedence
CLI token → environment variable → interactive prompt (only on a tty, and
only if the stripped entry is non-empty) → `none`. -/
theorem resolve_auth_token_precedence (env : TokenEnv) (cliToken : Option String) :
    (pyTruthy cliToken = true → resolve_auth_token env cliToken = cliToken) ∧
    (pyTruthy cliToken = false → pyTruthy env.envToken = true →
        resolve_auth_token env cliToken = env.envToken) ∧
    (pyTruthy cliToken = false → pyTruthy env.envToken = false → env.isatty = true →
        pyStrip env.promptInput ≠ "" →
        resolve_auth_token env cliToken = some (pyStrip env.promptInput)) ∧
    (pyTruthy cliToken = false → pyTruthy env.envToken = false →
        (env.isatty = false ∨ pyStrip env.promptInput = "") →
        resolve_auth_token env cliToken = none) := by
  refine ⟨?_, ?_, ?_, ?_⟩
  · intro h1
    simp [resolve_auth_token, h1]
  · intro h1 h2
    simp [resolve_auth_token, h1, h2]
  · intro h1 h2 h3 h4
    simp [resolve_auth_token, h1, h2, h3, h4]
  · intro h1 h2 h3
    cases h3 with
    | inl h => simp [resolve_auth_token, h1, h2, h]
    | inr h => cases hat : env.isatty <;> simp [resolve_auth_token, h1, h2, h, hat]

/-- Claim C6 witness: an explicit CLI token wins over a set environment
token. -/
theorem resolve_auth_token_precedence_witness :
    resolve_auth_token ⟨some "envtok", false, ""⟩ (some "clitok") = some "clitok" :=
  (resolve_auth_token_precedence ⟨some "envtok", false, ""⟩ (some "clitok")).1 (by decide)

/-- Claim C8: the single-file handler's path translation maps the root URL
path (`"/"` or the empty path) to the resolved target file, and every other
path through the inherited static-file resolution rooted at the directory
the handler was constructed with (the target file's parent directory). -/
theorem translate_path_single_file (env : HandlerEnv) (path : String) :
    ((path = "/" ∨ path = "") → translate_path env path = env.base_path) ∧
    (path ≠ "/" → path ≠ "" →
        translate_path env path = env.superTranslate env.parentDir path) := by
  constructor
  · intro h
    simp [translate_path, h]
  · intro h1 h2
    simp [translate_path, h1, h2]

/-- Claim C8 witness: the root path reaches the target file while an asset
path is delegated to static-file resolution. -/
theorem translate_path_single_file_witness :
    translate_path ⟨"/srv/site/neredenaldim.html", "/srv/site", fun d p => d ++ p⟩ "/" =
      "/srv/site/neredenaldim.html" :=
  (translate_path_single_file
      ⟨"/srv/site/neredenaldim.html", "/srv/site", fun d p => d ++ p⟩ "/").1 (Or.inl rfl)

end Websitesi
